import Mathlib

/-!
Verification of the agent deployment pipeline of the getonstack backend.

The embedding models, from the source:
- backend/services/framework_detector.py : FrameworkDetector with
  clone_repo, detect_framework, the five evidence sources, the keyword
  classifier, cleanup and validate_repo_url;
- backend/api/routes/agents.py : process_agent_deployment, the background
  task driving the status state machine on the deployment record.

External boundaries are modelled explicitly:
- a git subprocess invocation is a record of its observable outcome
  (whether the process could be spawned, wall-clock duration, exit code,
  captured output);
- each persistence call of the record store (db.commit) consults an oracle
  telling whether that attempt raised;
- the filesystem is represented by the observable events the pipeline
  performs on it (directory creation, directory removal, process spawn,
  cleanup invocation) and by a Workspace value giving the contents the
  detector reads.
-/

/-! ## String utilities (Python str operations used by the source) -/

/-- Boolean list-prefix test on characters. -/
def isPrefixL : List Char → List Char → Bool
  | [], _ => true
  | _ :: _, [] => false
  | a :: as, b :: bs => a == b && isPrefixL as bs

/-- Substring containment on character lists: Python needle in hay. -/
def containsSub : List Char → List Char → Bool
  | n, [] => isPrefixL n []
  | n, c :: t => isPrefixL n (c :: t) || containsSub n t

/-- Python needle in hay on strings. -/
def strContains (hay needle : String) : Bool :=
  containsSub needle.data hay.data

/-- Python str.lower, per character (the source only compares ASCII keywords). -/
def lowerS (s : String) : String := String.mk (s.data.map Char.toLower)

/-! ## Keyword classifier (FrameworkDetector._classify_by_keywords) -/

/-- Framework names, in the fixed priority order of the source. -/
def frameworks : List String := ["langgraph", "langchain", "crewai", "autogpt"]

/-- Generic dependency-declaration markers of _classify_by_keywords. -/
def dep_markers : List String :=
  ["project", "tool.poetry", "requires", "dependencies", "package"]

/-- FrameworkDetector._classify_by_keywords (framework_detector.py lines
203-218): first framework name contained in the text wins, in priority
order; otherwise a generic dependency marker yields custom; otherwise no
classification. Callers pass text already lower-cased. -/
def _classify_by_keywords (text : String) : Option String :=
  if strContains text "langgraph" then some "langgraph"
  else if strContains text "langchain" then some "langchain"
  else if strContains text "crewai" then some "crewai"
  else if strContains text "autogpt" then some "autogpt"
  else if dep_markers.any (fun k => strContains text k) then some "custom"
  else none

/-! ## Import-line matching (the regexes of _detect_from_imports) -/

/-- Python regex whitespace class, as used on the scanned source lines. -/
def isSpaceC (c : Char) : Bool :=
  c == ' ' || c == '\t' || c == '\n' || c == '\r' || c == '\x0b' || c == '\x0c'

/-- Drop leading regex whitespace. -/
def dropSpacesL : List Char → List Char
  | [] => []
  | c :: t => if isSpaceC c then dropSpacesL t else c :: t

/-- Remove an exact character-list prefix, or fail. -/
def stripPrefixL : List Char → List Char → Option (List Char)
  | [], l => some l
  | _ :: _, [] => none
  | a :: as, b :: bs => if a == b then stripPrefixL as bs else none

/-- After the from or import keyword: at least one whitespace, the framework
name, then end of line, a dot, or whitespace (the regex tail). -/
def restOk (fw : List Char) (rest : List Char) : Bool :=
  match rest with
  | [] => false
  | c :: t =>
    isSpaceC c &&
    (match stripPrefixL fw (dropSpacesL t) with
     | some [] => true
     | some (c2 :: _) => c2 == '.' || isSpaceC c2
     | none => false)

/-- The line-anchored import pattern of _detect_from_imports for one
framework name fw: optional leading whitespace, from or import, whitespace,
fw, then dot, whitespace or end of line. -/
def matchImport (fw : String) (line : String) : Bool :=
  let l := dropSpacesL line.data
  (match stripPrefixL ("from".data) l with
   | some r => restOk fw.data r
   | none => false) ||
  (match stripPrefixL ("import".data) l with
   | some r => restOk fw.data r
   | none => false)

/-! ## Workspace file tree and the bounded import scan
(FrameworkDetector._detect_from_imports, lines 158-201) -/

/-- A directory of the checked-out workspace: its name, its regular files
(name and content as a list of lines, mirroring the dirpath, dirnames,
filenames triple that os.walk yields per directory) and its
subdirectories. -/
inductive FsTree where
  | node (dirName : String) (files : List (String × List String)) (subdirs : List FsTree)

/-- Python str.endswith on strings. -/
def strEndsWith (s suffix : String) : Bool :=
  isPrefixL suffix.data.reverse s.data.reverse

/-- Name of a directory node. -/
def FsTree.dirNameOf : FsTree → String
  | .node n _ _ => n

/-- Directory names pruned in place by _detect_from_imports. -/
def ignore_dirs : List String :=
  [".git", "venv", ".venv", "env", ".env", "node_modules", "__pycache__"]

/-- File-count ceiling of the import scan. -/
def max_files : Nat := 500

/-- Import matches of one scanned file: the framework names whose pattern
matches one of the first 200 lines. The source accumulates them into a set
read only through membership, so a list models it. -/
def fileMatches (lines : List String) : List String :=
  frameworks.filter (fun fw => (lines.take 200).any (fun l => matchImport fw l))

/-- The per-directory file loop of the walk: .py files are scanned and
counted; reaching the ceiling raises StopIteration, here the Bool stop
flag. Returns (scanned, found, stopped). -/
def scanFilesL : List (String × List String) → Nat → List String → Nat × List String × Bool
  | [], sc, fd => (sc, fd, false)
  | (nm, lns) :: rest, sc, fd =>
    if strEndsWith nm ".py" then
      let fd2 := fd ++ fileMatches lns
      if max_files ≤ sc + 1 then (sc + 1, fd2, true)
      else scanFilesL rest (sc + 1) fd2
    else scanFilesL rest sc fd

/-- In-place pruning of ignored directory names before descending. -/
def pruneSubs (subs : List FsTree) : List FsTree :=
  subs.filter (fun t => !(ignore_dirs.contains t.dirNameOf))

/-- Depth-first walk of os.walk in top-down order, as a worklist: the files
of the current directory are scanned first, then the non-pruned
subdirectories are visited, then the remaining worklist. A true stop flag
(the StopIteration of the source) aborts the whole walk. -/
def scanGo : List FsTree → Nat → List String → Nat × List String × Bool
  | [], sc, fd => (sc, fd, false)
  | FsTree.node _ fs subs :: rest, sc, fd =>
    let r := scanFilesL fs sc fd
    if r.2.2 then r
    else scanGo (pruneSubs subs ++ rest) r.1 r.2.1
termination_by stack _ _ => sizeOf stack
decreasing_by
  simp_wf
  have h1 : ∀ l1 l2 : List FsTree, sizeOf (l1 ++ l2) + 1 = sizeOf l1 + sizeOf l2 := by
    intro l1 l2
    induction l1 with
    | nil => simp; omega
    | cons a t ih => simp [List.cons.sizeOf_spec]; omega
  have h2 : ∀ (p : FsTree → Bool) (l : List FsTree), sizeOf (l.filter p) ≤ sizeOf l := by
    intro p l
    induction l with
    | nil => simp
    | cons a t ih =>
      by_cases hp : p a <;> simp [List.filter, hp, List.cons.sizeOf_spec] <;> omega
  have h1x := h1 (pruneSubs subs) rest
  have h2x := h2 (fun t => !(ignore_dirs.contains t.dirNameOf)) subs
  simp [pruneSubs] at h1x h2x ⊢
  omega

/-- FrameworkDetector._detect_from_imports: walk the tree with the counter
and ceiling, aggregate the found set, then return the highest-priority
framework present, if any. -/
def _detect_from_imports (t : FsTree) : Option String :=
  let r := scanGo [t] 0 []
  frameworks.find? (fun fw => r.2.1.contains fw)

/-! ## Workspace contents read by the evidence sources -/

/-- Contents of the cloned workspace as the detector reads them. Each root
manifest or lock file is present (with its text) or absent, mirroring the
os.path.exists checks of the source; files that exist are readable (read
errors of the host filesystem are outside the model). For Pipfile.lock the
source parses the lower-cased raw text as JSON and classifies the dumped
serialization instead when parsing succeeds; that external json library
call is modelled by the second component of pipfile_lock: the dumped text
when the raw text parses, none when it is malformed. -/
structure Workspace where
  requirements_txt : Option String
  pyproject_toml : Option String
  pipfile : Option String
  poetry_lock : Option String
  uv_lock : Option String
  pipfile_lock : Option (String × Option String)
  tree : FsTree

/-- FrameworkDetector._detect_from_requirements (lines 91-102). -/
def _detect_from_requirements (ws : Workspace) : Option String :=
  match ws.requirements_txt with
  | none => none
  | some t => _classify_by_keywords (lowerS t)

/-- FrameworkDetector._detect_from_pyproject (lines 104-116). -/
def _detect_from_pyproject (ws : Workspace) : Option String :=
  match ws.pyproject_toml with
  | none => none
  | some t => _classify_by_keywords (lowerS t)

/-- FrameworkDetector._detect_from_pipfile (lines 118-129). -/
def _detect_from_pipfile (ws : Workspace) : Option String :=
  match ws.pipfile with
  | none => none
  | some t => _classify_by_keywords (lowerS t)

/-- FrameworkDetector._detect_from_lockfiles (lines 131-156): poetry.lock,
uv.lock, Pipfile.lock in order; a missing candidate or an unclassified text
moves on to the next candidate; the first classification wins. For
Pipfile.lock the classified text is the lower-cased JSON dump when the
lower-cased raw text parses, otherwise the lower-cased raw text itself. -/
def _detect_from_lockfiles (ws : Workspace) : Option String :=
  match (match ws.poetry_lock with
         | none => none
         | some t => _classify_by_keywords (lowerS t)) with
  | some f => some f
  | none =>
  match (match ws.uv_lock with
         | none => none
         | some t => _classify_by_keywords (lowerS t)) with
  | some f => some f
  | none =>
  match ws.pipfile_lock with
  | none => none
  | some (raw, js) =>
    _classify_by_keywords (match js with
                           | some d => lowerS d
                           | none => lowerS raw)

/-- The framework aggregation expression of FrameworkDetector.detect_framework
(lines 75-89): the or-chain over the five evidence sources with default
unknown. Each source returns an optional label, so the Python or-chain is a
first-some chain. The surrounding except clause of the source is
unreachable: every evidence source catches its own errors, so the chain
itself cannot raise. -/
def framework_label (ws : Workspace) : String :=
  match _detect_from_requirements ws with
  | some f => f
  | none =>
  match _detect_from_pyproject ws with
  | some f => f
  | none =>
  match _detect_from_pipfile ws with
  | some f => f
  | none =>
  match _detect_from_lockfiles ws with
  | some f => f
  | none =>
  match _detect_from_imports ws.tree with
  | some f => f
  | none => "unknown"

/-! ## External process boundary and filesystem events -/

/-- Observable outcome of the git clone subprocess invocation: whether the
process could be spawned at all (subprocess.run raises OSError otherwise),
its wall-clock duration in seconds, its exit code and its captured standard
error text. -/
structure GitProc where
  spawnOk : Bool
  durationSecs : Nat
  exitCode : Nat
  stderrTxt : String
deriving Repr, DecidableEq

/-- Observable outcome of the git rev-parse HEAD subprocess invocation. -/
structure RevProc where
  spawnOk : Bool
  exitCode : Nat
  stdoutTxt : String
deriving Repr, DecidableEq

/-- Filesystem and process events the pipeline performs, in order. -/
inductive Event where
  | mkdirTemp (d : String)
  | rmtreeDir (d : String)
  | spawn (cmd : List String)
  | cleanupCall (d : String)
deriving Repr, DecidableEq

/-- Errors of the pipeline run. persistRaised stands for an exception out
of a db.commit call; the others mirror the raise sites of the source. -/
inductive RunErr where
  | invalidUrl
  | cloneFailed (msg : String)
  | cloneTimeout
  | cloneOsError
  | revParseOsError
  | persistRaised
deriving Repr, DecidableEq

/-- Clone timeout bound of the source, in seconds. -/
def clone_timeout_seconds : Nat := 600

/-- The argument vector of the clone invocation (line 32). -/
def cloneCmd (branch url d : String) : List String :=
  ["git", "-c", "credential.helper=", "clone", "--depth", "1",
   "--branch", branch, url, d]

/-- Diagnostic message of a failed clone: e.stderr when non-empty, else the
str of the CalledProcessError (lines 42-43). -/
def cloneErrMsg (stderrTxt : String) : String :=
  "Failed to clone repository: " ++
    (if stderrTxt = "" then "CalledProcessError" else stderrTxt)

/-- FrameworkDetector.clone_repo (lines 13-46): mkdtemp creates the
temporary directory d, then the clone subprocess runs. Exceeding the
timeout raises TimeoutExpired and a non-zero exit raises CalledProcessError
(check equals True); both handlers remove the directory before re-raising.
A spawn failure (OSError) is caught by no handler: it propagates and the
directory is not removed. Returns the result together with the ordered
filesystem and process events. -/
def clone_repo (url branch d : String) (p : GitProc) :
    Except RunErr String × List Event :=
  if p.spawnOk = false then
    (Except.error RunErr.cloneOsError, [Event.mkdirTemp d])
  else if clone_timeout_seconds < p.durationSecs then
    (Except.error RunErr.cloneTimeout,
     [Event.mkdirTemp d, Event.spawn (cloneCmd branch url d), Event.rmtreeDir d])
  else if p.exitCode ≠ 0 then
    (Except.error (RunErr.cloneFailed (cloneErrMsg p.stderrTxt)),
     [Event.mkdirTemp d, Event.spawn (cloneCmd branch url d), Event.rmtreeDir d])
  else
    (Except.ok d, [Event.mkdirTemp d, Event.spawn (cloneCmd branch url d)])

/-- FrameworkDetector.detect_framework (lines 48-89): run git rev-parse
HEAD in the workspace; only CalledProcessError is caught (yielding no
commit hash), so a spawn failure propagates to the caller; then classify
through the evidence-source chain. Returns (framework, commit hash) with
the events performed. -/
def detect_framework (ws : Workspace) (p : RevProc) :
    Except RunErr (String × Option String) × List Event :=
  if p.spawnOk = false then
    (Except.error RunErr.revParseOsError, [])
  else
    (Except.ok (framework_label ws,
       if p.exitCode = 0 then some p.stdoutTxt.trim else none),
     [Event.spawn ["git", "rev-parse", "HEAD"]])

/-- FrameworkDetector.cleanup (lines 220-231): shutil.rmtree with
ignore_errors plus a catch-all handler, so it never raises and touches
nothing but the directory; its observable behavior is the invocation and
the removal. -/
def cleanup (repo_path : String) : List Event :=
  [Event.cleanupCall repo_path, Event.rmtreeDir repo_path]

/-- FrameworkDetector.validate_repo_url (lines 233-254): an empty string is
rejected, otherwise the url is accepted exactly when it contains one of the
three GitHub substring patterns. -/
def validate_repo_url (repo_url : String) : Bool :=
  if repo_url = "" then false
  else
    ["github.com/", "https://github.com/", "git@github.com:"].any
      (fun pat => strContains repo_url pat)

/-! ## Deployment orchestrator
(process_agent_deployment, backend/api/routes/agents.py lines 16-64) -/

/-- Status values of the deployment record. -/
inductive Status where
  | pending
  | cloning
  | detecting
  | detected
  | failed
deriving Repr, DecidableEq

/-- Result of one background run over an existing record: the status left
in the record store (the last successfully persisted one, starting from
pending set at record creation), the ordered list of successfully persisted
statuses of this run, the framework and commit pair persisted by the
success-path commit if it happened, the filesystem and process events, and
the exception escaping process_agent_deployment, if any. -/
structure RunResult where
  store : Status
  trace : List Status
  finalData : Option (String × Option String)
  events : List Event
  escaped : Option RunErr
deriving Repr, DecidableEq

/-- The except-Exception handler of process_agent_deployment followed by
the finally block: set the status to failed and commit (persist attempt
number n of the oracle); if that commit raises, the new exception escapes
after the finally block still runs. The finally block invokes cleanup
exactly when a workspace path was obtained. The original error is only
printed, never re-raised. -/
def failFinish (pOk : Nat → Bool) (n : Nat) (st : Status) (tr : List Status)
    (evs : List Event) (repoPath : Option String) : RunResult :=
  let cleanupEvs := match repoPath with
    | some p => cleanup p
    | none => []
  if pOk n then
    ⟨Status.failed, tr ++ [Status.failed], none, evs ++ cleanupEvs, none⟩
  else
    ⟨st, tr, none, evs ++ cleanupEvs, some RunErr.persistRaised⟩

/-- process_agent_deployment (agents.py lines 16-64) for a record that
exists, starting from the pending status persisted at record creation.
The commit calls consult the oracle pOk in attempt order: attempt 0
persists cloning (before the URL is validated), attempt 1 persists
detecting, attempt 2 persists detected together with the framework and
commit fields; a failure path uses the next attempt number for its failed
commit. A commit that raises is handled by the same except branch as any
other step error. The inputs are the record url and branch, the temporary
directory name d the fetch would create, the clone and rev-parse process
outcomes, and the workspace contents. -/
def process_agent_deployment (url branch d : String) (cp : GitProc)
    (rp : RevProc) (ws : Workspace) (pOk : Nat → Bool) : RunResult :=
  if pOk 0 = false then
    failFinish pOk 1 Status.pending [] [] none
  else
    if validate_repo_url url = false then
      failFinish pOk 1 Status.cloning [Status.cloning] [] none
    else
      match clone_repo url branch d cp with
      | (Except.error _, evs) =>
        failFinish pOk 1 Status.cloning [Status.cloning] evs none
      | (Except.ok path, evs) =>
        if pOk 1 = false then
          failFinish pOk 2 Status.cloning [Status.cloning] evs (some path)
        else
          match detect_framework ws rp with
          | (Except.error _, evs2) =>
            failFinish pOk 2 Status.detecting
              [Status.cloning, Status.detecting] (evs ++ evs2) (some path)
          | (Except.ok fwc, evs2) =>
            if pOk 2 = false then
              failFinish pOk 3 Status.detecting
                [Status.cloning, Status.detecting] (evs ++ evs2) (some path)
            else
              ⟨Status.detected,
               [Status.cloning, Status.detecting, Status.detected],
               some fwc, evs ++ evs2 ++ cleanup path, none⟩

/-! ## Spec-side definitions used to state the claims -/

/-- First non-empty element of an ordered list of optional classifications:
the short-circuiting fold the spec describes for the evidence chain. -/
def firstSomeAux : List (Option String) → Option String
  | [] => none
  | some x :: _ => some x
  | none :: rest => firstSomeAux rest

/-- The five evidence sources of the classifier, in consultation order. -/
def sourceResults (ws : Workspace) : List (Option String) :=
  [_detect_from_requirements ws, _detect_from_pyproject ws,
   _detect_from_pipfile ws, _detect_from_lockfiles ws,
   _detect_from_imports ws.tree]

/-- The texts the manifest and lock-file sources would classify, for the
files present in the workspace: lower-cased, and for Pipfile.lock the
effective (possibly JSON-normalized) text. -/
def consulted_texts (ws : Workspace) : List String :=
  (match ws.requirements_txt with | some t => [lowerS t] | none => []) ++
  (match ws.pyproject_toml with | some t => [lowerS t] | none => []) ++
  (match ws.pipfile with | some t => [lowerS t] | none => []) ++
  (match ws.poetry_lock with | some t => [lowerS t] | none => []) ++
  (match ws.uv_lock with | some t => [lowerS t] | none => []) ++
  (match ws.pipfile_lock with
   | some (raw, js) => [match js with | some dmp => lowerS dmp | none => lowerS raw]
   | none => [])

/-- Ordered list of the line-contents of the .py files the walk can see:
full depth-first walk order, ignored directories pruned, no ceiling. -/
def pyFilesOf : List FsTree → List (List String)
  | [] => []
  | FsTree.node _ fs subs :: rest =>
    (fs.filter (fun f => strEndsWith f.1 ".py")).map (fun f => f.2) ++
      pyFilesOf (pruneSubs subs ++ rest)
termination_by stack => sizeOf stack
decreasing_by
  simp_wf
  have h1 : ∀ l1 l2 : List FsTree, sizeOf (l1 ++ l2) + 1 = sizeOf l1 + sizeOf l2 := by
    intro l1 l2
    induction l1 with
    | nil => simp; omega
    | cons a t ih => simp [List.cons.sizeOf_spec]; omega
  have h2 : ∀ (p : FsTree → Bool) (l : List FsTree), sizeOf (l.filter p) ≤ sizeOf l := by
    intro p l
    induction l with
    | nil => simp
    | cons a t ih =>
      by_cases hp : p a <;> simp [List.filter, hp, List.cons.sizeOf_spec] <;> omega
  have h1x := h1 (pruneSubs subs) rest
  have h2x := h2 (fun t => !(ignore_dirs.contains t.dirNameOf)) subs
  simp [pruneSubs] at h1x h2x ⊢
  omega

/-- The import scan as the spec words it: the first 500 .py files of the
pruned walk are inspected, each contributing the import matches of its
first 200 lines, and the highest-priority framework among the aggregated
matches is returned. -/
def imports_spec (t : FsTree) : Option String :=
  frameworks.find?
    (fun fw => (((pyFilesOf [t]).take max_files).flatMap fileMatches).contains fw)

/-- A workspace with no manifests, no lock files and no source files. -/
def emptyWorkspace : Workspace :=
  ⟨none, none, none, none, none, none, FsTree.node "" [] []⟩

/-! ## Classifier lemmas -/

/-- Any classification of the keyword classifier is one of the four
framework names or custom. -/
theorem classify_mem (t f : String) (h : _classify_by_keywords t = some f) :
    f ∈ ["langgraph", "langchain", "crewai", "autogpt", "custom"] := by
  unfold _classify_by_keywords at h
  split_ifs at h <;> simp_all

/-- A custom classification means some generic dependency marker is
contained in the text and no framework name is. -/
theorem classify_custom (t : String) (h : _classify_by_keywords t = some "custom") :
    dep_markers.any (fun k => strContains t k) = true ∧
      ∀ fw ∈ frameworks, strContains t fw = false := by
  unfold _classify_by_keywords at h
  split_ifs at h with h1 h2 h3 h4 h5 <;> simp_all [frameworks]

/-- The import scan only ever reports one of the four framework names. -/
theorem imports_mem (t : FsTree) (f : String) (h : _detect_from_imports t = some f) :
    f ∈ frameworks := by
  unfold _detect_from_imports at h
  exact List.mem_of_find?_eq_some h

theorem req_witness (ws : Workspace) (f : String)
    (h : _detect_from_requirements ws = some f) :
    ∃ t ∈ consulted_texts ws, _classify_by_keywords t = some f := by
  unfold _detect_from_requirements at h
  rcases hr : ws.requirements_txt with _ | tr <;> rw [hr] at h
  · simp at h
  · exact ⟨lowerS tr, by simp [consulted_texts, hr], h⟩

theorem pyp_witness (ws : Workspace) (f : String)
    (h : _detect_from_pyproject ws = some f) :
    ∃ t ∈ consulted_texts ws, _classify_by_keywords t = some f := by
  unfold _detect_from_pyproject at h
  rcases hr : ws.pyproject_toml with _ | tr <;> rw [hr] at h
  · simp at h
  · exact ⟨lowerS tr, by simp [consulted_texts, hr], h⟩

theorem pipf_witness (ws : Workspace) (f : String)
    (h : _detect_from_pipfile ws = some f) :
    ∃ t ∈ consulted_texts ws, _classify_by_keywords t = some f := by
  unfold _detect_from_pipfile at h
  rcases hr : ws.pipfile with _ | tr <;> rw [hr] at h
  · simp at h
  · exact ⟨lowerS tr, by simp [consulted_texts, hr], h⟩

theorem lock_witness (ws : Workspace) (f : String)
    (h : _detect_from_lockfiles ws = some f) :
    ∃ t ∈ consulted_texts ws, _classify_by_keywords t = some f := by
  unfold _detect_from_lockfiles at h
  rcases hp : ws.poetry_lock with _ | tp <;> rw [hp] at h
  case some =>
    simp only [] at h
    rcases hc1 : _classify_by_keywords (lowerS tp) with _ | g <;> simp only [hc1] at h
    case some => exact ⟨lowerS tp, by simp [consulted_texts, hp], by simp at h; rw [h] at hc1; exact hc1⟩
    case none =>
      rcases hu : ws.uv_lock with _ | tu <;> simp only [hu] at h
      case some =>
        rcases hc2 : _classify_by_keywords (lowerS tu) with _ | g <;> simp only [hc2] at h
        case some => exact ⟨lowerS tu, by simp [consulted_texts, hu], by simp at h; rw [h] at hc2; exact hc2⟩
        case none =>
          rcases hl : ws.pipfile_lock with _ | ⟨raw, js⟩ <;> simp only [hl] at h
          case none => simp at h
          case some =>
            rcases js with _ | dmp
            · exact ⟨lowerS raw, by simp [consulted_texts, hl], h⟩
            · exact ⟨lowerS dmp, by simp [consulted_texts, hl], h⟩
      case none =>
        rcases hl : ws.pipfile_lock with _ | ⟨raw, js⟩ <;> simp only [hl] at h
        case none => simp at h
        case some =>
          rcases js with _ | dmp
          · exact ⟨lowerS raw, by simp [consulted_texts, hl], h⟩
          · exact ⟨lowerS dmp, by simp [consulted_texts, hl], h⟩
  case none =>
    simp only [] at h
    rcases hu : ws.uv_lock with _ | tu <;> simp only [hu] at h
    case some =>
      rcases hc2 : _classify_by_keywords (lowerS tu) with _ | g <;> simp only [hc2] at h
      case some => exact ⟨lowerS tu, by simp [consulted_texts, hu], by simp at h; rw [h] at hc2; exact hc2⟩
      case none =>
        rcases hl : ws.pipfile_lock with _ | ⟨raw, js⟩ <;> simp only [hl] at h
        case none => simp at h
        case some =>
          rcases js with _ | dmp
          · exact ⟨lowerS raw, by simp [consulted_texts, hl], h⟩
          · exact ⟨lowerS dmp, by simp [consulted_texts, hl], h⟩
    case none =>
      rcases hl : ws.pipfile_lock with _ | ⟨raw, js⟩ <;> simp only [hl] at h
      case none => simp at h
      case some =>
        rcases js with _ | dmp
        · exact ⟨lowerS raw, by simp [consulted_texts, hl], h⟩
        · exact ⟨lowerS dmp, by simp [consulted_texts, hl], h⟩

theorem label_cases (ws : Workspace) :
    (∃ t ∈ consulted_texts ws, _classify_by_keywords t = some (framework_label ws)) ∨
    _detect_from_imports ws.tree = some (framework_label ws) ∨
    (framework_label ws = "unknown" ∧ _detect_from_requirements ws = none ∧
     _detect_from_pyproject ws = none ∧ _detect_from_pipfile ws = none ∧
     _detect_from_lockfiles ws = none ∧ _detect_from_imports ws.tree = none) := by
  rcases h1 : _detect_from_requirements ws with _ | f1
  · rcases h2 : _detect_from_pyproject ws with _ | f2
    · rcases h3 : _detect_from_pipfile ws with _ | f3
      · rcases h4 : _detect_from_lockfiles ws with _ | f4
        · rcases h5 : _detect_from_imports ws.tree with _ | f5
          · have hl : framework_label ws = "unknown" := by
              simp [framework_label, h1, h2, h3, h4, h5]
            exact Or.inr (Or.inr ⟨hl, rfl, rfl, rfl, rfl, rfl⟩)
          · have hl : framework_label ws = f5 := by
              simp [framework_label, h1, h2, h3, h4, h5]
            refine Or.inr (Or.inl ?_)
            rw [hl]
        · have hl : framework_label ws = f4 := by simp [framework_label, h1, h2, h3, h4]
          refine Or.inl ?_
          rw [hl]; exact lock_witness ws f4 h4
      · have hl : framework_label ws = f3 := by simp [framework_label, h1, h2, h3]
        refine Or.inl ?_
        rw [hl]; exact pipf_witness ws f3 h3
    · have hl : framework_label ws = f2 := by simp [framework_label, h1, h2]
      refine Or.inl ?_
      rw [hl]; exact pyp_witness ws f2 h2
  · have hl : framework_label ws = f1 := by simp [framework_label, h1]
    refine Or.inl ?_
    rw [hl]; exact req_witness ws f1 h1

/-- C5: the classification is always one of the six labels of the closed
set; custom only arises from a consulted manifest or lock-file text that
contains a generic dependency marker and no framework name; unknown arises
exactly when no evidence source yields a decision, in particular on an
empty workspace. -/
theorem C5_label_closed_set :
    (∀ ws : Workspace,
       framework_label ws ∈
         ["langgraph", "langchain", "crewai", "autogpt", "custom", "unknown"])
    ∧ (∀ ws : Workspace, framework_label ws = "custom" →
        ∃ t ∈ consulted_texts ws,
          dep_markers.any (fun k => strContains t k) = true ∧
          ∀ fw ∈ frameworks, strContains t fw = false)
    ∧ (∀ ws : Workspace, (framework_label ws = "unknown" ↔
        (_detect_from_requirements ws = none ∧ _detect_from_pyproject ws = none ∧
         _detect_from_pipfile ws = none ∧ _detect_from_lockfiles ws = none ∧
         _detect_from_imports ws.tree = none)))
    ∧ framework_label emptyWorkspace = "unknown" := by
  refine ⟨?_, ?_, ?_, ?_⟩
  · intro ws
    rcases label_cases ws with ⟨t, _, hc⟩ | h | ⟨hu, _⟩
    · have := classify_mem t _ hc
      simp at this ⊢
      tauto
    · have := imports_mem ws.tree _ h
      simp [frameworks] at this ⊢
      tauto
    · simp [hu]
  · intro ws hcu
    rcases label_cases ws with ⟨t, hmem, hc⟩ | h | ⟨hu, _⟩
    · rw [hcu] at hc
      exact ⟨t, hmem, classify_custom t hc⟩
    · rw [hcu] at h
      have := imports_mem ws.tree _ h
      simp [frameworks] at this
    · rw [hcu] at hu
      simp at hu
  · intro ws
    constructor
    · intro hu
      rcases label_cases ws with ⟨t, _, hc⟩ | h | ⟨_, hrest⟩
      · rw [hu] at hc
        have := classify_mem t _ hc
        simp at this
      · rw [hu] at h
        have := imports_mem ws.tree _ h
        simp [frameworks] at this
      · exact hrest
    · rintro ⟨h1, h2, h3, h4, h5⟩
      simp [framework_label, h1, h2, h3, h4, h5]
  · simp +decide [framework_label, emptyWorkspace, _detect_from_requirements,
      _detect_from_pyproject, _detect_from_pipfile, _detect_from_lockfiles,
      _detect_from_imports, scanGo, scanFilesL, pruneSubs]

/-- C5 witness: a pyproject manifest with generic dependency markers and no
framework name classifies as custom, and the custom characterization of the
claim theorem applies to it. -/
theorem C5_label_closed_set_witness :
    framework_label ⟨none, some "[tool.poetry] x", none, none, none, none,
        FsTree.node "" [] []⟩ = "custom" ∧
    ∃ t ∈ consulted_texts ⟨none, some "[tool.poetry] x", none, none, none, none,
        FsTree.node "" [] []⟩,
      dep_markers.any (fun k => strContains t k) = true ∧
      ∀ fw ∈ frameworks, strContains t fw = false := by
  have h : framework_label ⟨none, some "[tool.poetry] x", none, none, none, none,
      FsTree.node "" [] []⟩ = "custom" := by
    simp +decide [framework_label, _detect_from_requirements, _detect_from_pyproject]
  exact ⟨h, C5_label_closed_set.2.1 _ h⟩

/-- C4: the evidence sources are consulted in the fixed order with
short-circuit on the first non-empty classification; in particular a
requirements text classifying as langchain wins over an import scan that
alone would report crewai. -/
theorem C4_source_order_short_circuit :
    (∀ ws : Workspace,
        framework_label ws = (firstSomeAux (sourceResults ws)).getD "unknown")
    ∧ (∀ (ws : Workspace) (t : String), ws.requirements_txt = some t →
        _classify_by_keywords (lowerS t) = some "langchain" →
        _detect_from_imports ws.tree = some "crewai" →
        framework_label ws = "langchain") := by
  constructor
  · intro ws
    rcases h1 : _detect_from_requirements ws with _ | f1 <;>
    rcases h2 : _detect_from_pyproject ws with _ | f2 <;>
    rcases h3 : _detect_from_pipfile ws with _ | f3 <;>
    rcases h4 : _detect_from_lockfiles ws with _ | f4 <;>
    rcases h5 : _detect_from_imports ws.tree with _ | f5 <;>
    simp [framework_label, sourceResults, firstSomeAux, h1, h2, h3, h4, h5]
  · intro ws t ht hc _
    simp [framework_label, _detect_from_requirements, ht, hc]

/-- C4 witness: a concrete workspace whose requirements.txt says langchain
and whose only source file imports crewai classifies as langchain. -/
theorem C4_source_order_short_circuit_witness :
    (⟨some "langchain", none, none, none, none, none,
       FsTree.node "" [("agent.py", ["import crewai"])] []⟩ : Workspace).requirements_txt
        = some "langchain" ∧
    _classify_by_keywords (lowerS "langchain") = some "langchain" ∧
    _detect_from_imports (FsTree.node "" [("agent.py", ["import crewai"])] [])
        = some "crewai" ∧
    framework_label ⟨some "langchain", none, none, none, none, none,
       FsTree.node "" [("agent.py", ["import crewai"])] []⟩ = "langchain" := by
  have him : _detect_from_imports (FsTree.node "" [("agent.py", ["import crewai"])] [])
      = some "crewai" := by
    simp +decide [_detect_from_imports, scanGo, scanFilesL, pruneSubs, max_files]
  exact ⟨rfl, by decide, him,
    C4_source_order_short_circuit.2 _ "langchain" rfl (by decide) him⟩

/-- C10: manifest classification is plain substring containment on the
lower-cased text, with the fixed priority order among the four names: the
requirements source is exactly the keyword classifier on the lower-cased
file text, and each framework name contained in the text is returned
whenever no higher-priority name is also contained, no matter where in the
text it occurs (comments and longer package names included). -/
theorem C10_keyword_substring :
    (∀ (ws : Workspace) (t : String), ws.requirements_txt = some t →
        _detect_from_requirements ws = _classify_by_keywords (lowerS t))
    ∧ (∀ t : String, strContains t "langgraph" = true →
        _classify_by_keywords t = some "langgraph")
    ∧ (∀ t : String, strContains t "langgraph" = false →
        strContains t "langchain" = true →
        _classify_by_keywords t = some "langchain")
    ∧ (∀ t : String, strContains t "langgraph" = false →
        strContains t "langchain" = false → strContains t "crewai" = true →
        _classify_by_keywords t = some "crewai")
    ∧ (∀ t : String, strContains t "langgraph" = false →
        strContains t "langchain" = false → strContains t "crewai" = false →
        strContains t "autogpt" = true →
        _classify_by_keywords t = some "autogpt") := by
  refine ⟨?_, ?_, ?_, ?_, ?_⟩
  · intro ws t ht
    simp [_detect_from_requirements, ht]
  · intro t h1
    simp [_classify_by_keywords, h1]
  · intro t h1 h2
    simp [_classify_by_keywords, h1, h2]
  · intro t h1 h2 h3
    simp [_classify_by_keywords, h1, h2, h3]
  · intro t h1 h2 h3 h4
    simp [_classify_by_keywords, h1, h2, h3, h4]

/-- C10 witness: a requirements file consisting of a comment line naming
the longer package langchain-community still classifies as langchain. -/
theorem C10_keyword_substring_witness :
    _detect_from_requirements ⟨some "# uses Langchain-community", none, none,
        none, none, none, FsTree.node "" [] []⟩ = some "langchain" ∧
    _classify_by_keywords (lowerS "# uses Langchain-community") = some "langchain" := by
  have h2 : _classify_by_keywords (lowerS "# uses Langchain-community")
      = some "langchain" :=
    C10_keyword_substring.2.2.1 (lowerS "# uses Langchain-community")
      (by decide) (by decide)
  exact ⟨(C10_keyword_substring.1 _ "# uses Langchain-community" rfl).trans h2, h2⟩

theorem clone_repo_ok (url branch d : String) (cp : GitProc) (path : String)
    (h : (clone_repo url branch d cp).1 = Except.ok path) :
    path = d ∧ clone_repo url branch d cp =
      (Except.ok d, [Event.mkdirTemp d, Event.spawn (cloneCmd branch url d)]) := by
  unfold clone_repo at h ⊢
  split_ifs at h ⊢
  all_goals simp_all

theorem failFinish_escaped (pOk : Nat → Bool) (n : Nat) (st : Status)
    (tr : List Status) (evs : List Event) (rpath : Option String) :
    (failFinish pOk n st tr evs rpath).escaped = none ∨
      (failFinish pOk n st tr evs rpath).escaped = some RunErr.persistRaised := by
  unfold failFinish
  rcases h : pOk n <;> simp [h]

theorem failFinish_store_trace (pOk : Nat → Bool) (n : Nat) (st : Status)
    (tr : List Status) (evs : List Event) (rpath : Option String)
    (hst : st = tr.getLastD Status.pending) :
    (failFinish pOk n st tr evs rpath).store =
      (failFinish pOk n st tr evs rpath).trace.getLastD Status.pending := by
  unfold failFinish
  rcases h : pOk n <;> simp [h, hst]

theorem failFinish_escaped_none (pOk : Nat → Bool) (n : Nat) (st : Status)
    (tr : List Status) (evs : List Event) (rpath : Option String)
    (h : (failFinish pOk n st tr evs rpath).escaped = none) :
    (failFinish pOk n st tr evs rpath).store = Status.failed := by
  unfold failFinish at h ⊢
  rcases hp : pOk n <;> simp [hp] at h ⊢

theorem run_shape (url branch d : String) (cp : GitProc) (rp : RevProc)
    (ws : Workspace) (pOk : Nat → Bool) :
    (∃ n st tr evs rpath,
        process_agent_deployment url branch d cp rp ws pOk =
          failFinish pOk n st tr evs rpath ∧
        st = tr.getLastD Status.pending) ∨
    (∃ fwc evs, process_agent_deployment url branch d cp rp ws pOk =
        ⟨Status.detected, [Status.cloning, Status.detecting, Status.detected],
         some fwc, evs, none⟩) := by
  unfold process_agent_deployment
  rcases hp0 : pOk 0
  · simp only [hp0, reduceIte]
    exact Or.inl ⟨1, Status.pending, [], [], none, rfl, by simp⟩
  · by_cases hv : validate_repo_url url = false
    · simp only [hp0, hv, reduceIte]
      exact Or.inl ⟨1, Status.cloning, [Status.cloning], [], none, rfl, by simp⟩
    · simp only [hp0, hv, reduceIte]
      rcases hcl : clone_repo url branch d cp with ⟨res, evs⟩
      rcases res with e | path
      · exact Or.inl ⟨1, Status.cloning, [Status.cloning], evs, none, rfl, by simp⟩
      · rcases hp1 : pOk 1
        · simp only [hp1, reduceIte]
          exact Or.inl ⟨2, Status.cloning, [Status.cloning], evs, some path, rfl, by simp⟩
        · rcases hsp : rp.spawnOk
          · simp only [hp1, detect_framework, hsp, reduceIte]
            exact Or.inl ⟨2, Status.detecting, [Status.cloning, Status.detecting],
              evs ++ [], some path, rfl, by simp⟩
          · rcases hp2 : pOk 2
            · simp only [hp1, detect_framework, hsp, hp2, reduceIte]
              exact Or.inl ⟨3, Status.detecting, [Status.cloning, Status.detecting],
                evs ++ [Event.spawn ["git", "rev-parse", "HEAD"]], some path, rfl, by simp⟩
            · simp only [hp1, detect_framework, hsp, hp2, reduceIte]
              exact Or.inr ⟨_, _, rfl⟩

/-- C1: whenever the fetch returned a workspace, the cleanup of the finally
block is invoked on it exactly once, on the success path and on every
failure path, including a failed detection and a raising persist; nothing
but a persist failure ever escapes the run (cleanup in particular cannot,
being rmtree with ignore_errors inside a catch-all handler), and the final
store status is exactly the last persisted one, so the cleanup step never
alters the already-persisted terminal status. -/
theorem C1_cleanup_exactly_once (url branch d : String) (cp : GitProc)
    (rp : RevProc) (ws : Workspace) (pOk : Nat → Bool) :
    (∀ path, pOk 0 = true → validate_repo_url url = true →
      (clone_repo url branch d cp).1 = Except.ok path →
      ((process_agent_deployment url branch d cp rp ws pOk).events.countP
          (fun e => e == Event.cleanupCall path)) = 1)
    ∧ ((process_agent_deployment url branch d cp rp ws pOk).escaped = none ∨
       (process_agent_deployment url branch d cp rp ws pOk).escaped =
         some RunErr.persistRaised)
    ∧ (process_agent_deployment url branch d cp rp ws pOk).store =
        (process_agent_deployment url branch d cp rp ws pOk).trace.getLastD
          Status.pending := by
  refine ⟨?_, ?_, ?_⟩
  · intro path hp0 hval hcl
    obtain ⟨hpd, hfull⟩ := clone_repo_ok url branch d cp path hcl
    subst hpd
    unfold process_agent_deployment
    rw [hfull]
    have hv2 : validate_repo_url url = false ↔ False := by simp [hval]
    simp only [hp0, hv2, reduceIte, iff_false]
    rcases hp1 : pOk 1
    · simp only [hp1, reduceIte]
      rcases hp2 : pOk 2 <;>
        simp [hp2, failFinish, cleanup, List.countP_cons, List.countP_nil]
    · rcases hsp : rp.spawnOk
      · simp only [hp1, detect_framework, hsp, reduceIte]
        rcases hp2 : pOk 2 <;>
          simp [hp2, failFinish, cleanup, List.countP_cons, List.countP_nil]
      · rcases hp2 : pOk 2
        · simp only [hp1, detect_framework, hsp, hp2, reduceIte]
          rcases hp3 : pOk 3 <;>
            simp [hp3, failFinish, cleanup, List.countP_cons, List.countP_nil]
        · simp only [hp1, detect_framework, hsp, hp2, reduceIte]
          simp [cleanup, List.countP_cons, List.countP_nil]
  · rcases run_shape url branch d cp rp ws pOk with
      ⟨n, st, tr, evs, rpath, heq, _⟩ | ⟨fwc, evs, heq⟩
    · rw [heq]
      exact failFinish_escaped pOk n st tr evs rpath
    · rw [heq]
      exact Or.inl rfl
  · rcases run_shape url branch d cp rp ws pOk with
      ⟨n, st, tr, evs, rpath, heq, hst⟩ | ⟨fwc, evs, heq⟩
    · rw [heq]
      exact failFinish_store_trace pOk n st tr evs rpath hst
    · rw [heq]
      simp

/-- C1 witness: a successful validation and clone with a failing rev-parse
spawn still cleans the workspace exactly once. -/
theorem C1_cleanup_exactly_once_witness :
    validate_repo_url "https://github.com/a/b" = true ∧
    (clone_repo "https://github.com/a/b" "main" "/tmp/agent_w"
        ⟨true, 1, 0, ""⟩).1 = Except.ok "/tmp/agent_w" ∧
    ((process_agent_deployment "https://github.com/a/b" "main" "/tmp/agent_w"
        ⟨true, 1, 0, ""⟩ ⟨false, 0, ""⟩ emptyWorkspace (fun _ => true)).events.countP
        (fun e => e == Event.cleanupCall "/tmp/agent_w")) = 1 :=
  ⟨by decide, rfl,
   (C1_cleanup_exactly_once "https://github.com/a/b" "main" "/tmp/agent_w"
      ⟨true, 1, 0, ""⟩ ⟨false, 0, ""⟩ emptyWorkspace (fun _ => true)).1
     "/tmp/agent_w" rfl (by decide) rfl⟩

/-- C2 counterexample: a run in which the first persist succeeds, the URL
is rejected, and the failure-path persist raises, leaves cloning as the
persisted status: the run has completed (with the persist error escaping),
yet the final persisted status is neither detected nor failed. -/
theorem C2_terminal_status_counterexample :
    (process_agent_deployment "not-a-valid-url" "main" "/tmp/agent_w"
        ⟨true, 1, 0, ""⟩ ⟨true, 0, ""⟩ emptyWorkspace (fun n => n == 0)).store =
      Status.cloning ∧
    Status.cloning ≠ Status.detected ∧ Status.cloning ≠ Status.failed ∧
    (process_agent_deployment "not-a-valid-url" "main" "/tmp/agent_w"
        ⟨true, 1, 0, ""⟩ ⟨true, 0, ""⟩ emptyWorkspace (fun n => n == 0)).escaped =
      some RunErr.persistRaised := by
  refine ⟨rfl, by decide, by decide, rfl⟩

/-- C2 amended: for every run that completes without an exception escaping
it (equivalently, whose terminal-status persist succeeded), the final
persisted status is detected or failed. -/
theorem C2_terminal_status_amended (url branch d : String) (cp : GitProc)
    (rp : RevProc) (ws : Workspace) (pOk : Nat → Bool)
    (h : (process_agent_deployment url branch d cp rp ws pOk).escaped = none) :
    (process_agent_deployment url branch d cp rp ws pOk).store = Status.detected ∨
    (process_agent_deployment url branch d cp rp ws pOk).store = Status.failed := by
  rcases run_shape url branch d cp rp ws pOk with
    ⟨n, st, tr, evs, rpath, heq, _⟩ | ⟨fwc, evs, heq⟩
  · rw [heq] at h ⊢
    exact Or.inr (failFinish_escaped_none pOk n st tr evs rpath h)
  · rw [heq]
    exact Or.inl rfl

/-- C2 amended witness: an invalid URL with all persists succeeding ends
with no escaping exception and the failed status. -/
theorem C2_terminal_status_amended_witness :
    (process_agent_deployment "not-a-valid-url" "main" "/tmp/agent_w"
        ⟨true, 1, 0, ""⟩ ⟨true, 0, ""⟩ emptyWorkspace (fun _ => true)).escaped = none ∧
    ((process_agent_deployment "not-a-valid-url" "main" "/tmp/agent_w"
        ⟨true, 1, 0, ""⟩ ⟨true, 0, ""⟩ emptyWorkspace (fun _ => true)).store =
        Status.detected ∨
     (process_agent_deployment "not-a-valid-url" "main" "/tmp/agent_w"
        ⟨true, 1, 0, ""⟩ ⟨true, 0, ""⟩ emptyWorkspace (fun _ => true)).store =
        Status.failed) :=
  ⟨rfl, C2_terminal_status_amended "not-a-valid-url" "main" "/tmp/agent_w"
     ⟨true, 1, 0, ""⟩ ⟨true, 0, ""⟩ emptyWorkspace (fun _ => true) rfl⟩

/-- C3 counterexample: on a run whose URL fails validation (with all
persists succeeding), the persisted trace is cloning then failed: the
cloning status is persisted even though the URL was never valid, because
the source commits cloning before validating the URL. -/
theorem C3_cloning_persisted_counterexample :
    validate_repo_url "not-a-valid-url" = false ∧
    (process_agent_deployment "not-a-valid-url" "main" "/tmp/agent_w"
        ⟨true, 1, 0, ""⟩ ⟨true, 0, ""⟩ emptyWorkspace (fun _ => true)).trace =
      [Status.cloning, Status.failed] ∧
    Status.cloning ∈ (process_agent_deployment "not-a-valid-url" "main" "/tmp/agent_w"
        ⟨true, 1, 0, ""⟩ ⟨true, 0, ""⟩ emptyWorkspace (fun _ => true)).trace := by
  refine ⟨by decide, rfl, by decide⟩

/-- C3 amended: a run whose URL fails validation persists exactly cloning
then failed (the cloning transition precedes the validation in the source)
and performs no filesystem or process action: no clone process is spawned
and no directory is created; the detecting status is never persisted. -/
theorem C3_invalid_url_amended (url branch d : String) (cp : GitProc)
    (rp : RevProc) (ws : Workspace) (pOk : Nat → Bool)
    (hv : validate_repo_url url = false) (hp : ∀ n, pOk n = true) :
    (process_agent_deployment url branch d cp rp ws pOk).trace =
      [Status.cloning, Status.failed] ∧
    (process_agent_deployment url branch d cp rp ws pOk).events = [] := by
  unfold process_agent_deployment
  simp [hv, hp 0, hp 1, failFinish]

/-- C3 amended witness. -/
theorem C3_invalid_url_amended_witness :
    validate_repo_url "not-a-valid-url" = false ∧
    (process_agent_deployment "not-a-valid-url" "main" "/tmp/agent_w"
        ⟨true, 1, 0, ""⟩ ⟨true, 0, ""⟩ emptyWorkspace (fun _ => true)).trace =
      [Status.cloning, Status.failed] ∧
    (process_agent_deployment "not-a-valid-url" "main" "/tmp/agent_w"
        ⟨true, 1, 0, ""⟩ ⟨true, 0, ""⟩ emptyWorkspace (fun _ => true)).events = [] :=
  ⟨by decide,
   (C3_invalid_url_amended "not-a-valid-url" "main" "/tmp/agent_w"
      ⟨true, 1, 0, ""⟩ ⟨true, 0, ""⟩ emptyWorkspace (fun _ => true)
      (by decide) (fun n => rfl)).1,
   (C3_invalid_url_amended "not-a-valid-url" "main" "/tmp/agent_w"
      ⟨true, 1, 0, ""⟩ ⟨true, 0, ""⟩ emptyWorkspace (fun _ => true)
      (by decide) (fun n => rfl)).2⟩

/-- C6 counterexample: only subprocess.CalledProcessError is caught around
the rev-parse call, so a revision lookup whose process cannot be spawned
(for instance a workspace path that no longer exists) raises out of
detect_framework, and the surrounding run ends failed instead of proceeding
through detection. -/
theorem C6_resolution_raises_counterexample :
    (detect_framework emptyWorkspace ⟨false, 0, ""⟩).1 =
      Except.error RunErr.revParseOsError ∧
    (process_agent_deployment "https://github.com/a/b" "main" "/tmp/agent_w"
        ⟨true, 1, 0, ""⟩ ⟨false, 0, ""⟩ emptyWorkspace (fun _ => true)).store =
      Status.failed :=
  ⟨rfl, rfl⟩

/-- C6 amended: a revision lookup that runs and exits non-zero (notably a
workspace that is not version-controlled) yields an empty commit id and
detection still proceeds, the run reaching the detected status; only a
failure to spawn the lookup process escapes. -/
theorem C6_resolution_amended :
    (∀ (ws : Workspace) (rp : RevProc), rp.spawnOk = true → rp.exitCode ≠ 0 →
        (detect_framework ws rp).1 = Except.ok (framework_label ws, none))
    ∧ (∀ (url branch d : String) (cp : GitProc) (rp : RevProc) (ws : Workspace)
        (pOk : Nat → Bool), validate_repo_url url = true →
        cp.spawnOk = true → cp.durationSecs ≤ clone_timeout_seconds →
        cp.exitCode = 0 → rp.spawnOk = true → (∀ n, pOk n = true) →
        (process_agent_deployment url branch d cp rp ws pOk).store =
          Status.detected) := by
  constructor
  · intro ws rp h1 h2
    simp [detect_framework, h1, h2]
  · intro url branch d cp rp ws pOk hval hsp hdur hexit hrsp hp
    have hnd : ¬(clone_timeout_seconds < cp.durationSecs) := not_lt.mpr hdur
    have hv2 : validate_repo_url url = false ↔ False := by simp [hval]
    unfold process_agent_deployment
    simp [hp 0, hp 1, hp 2, hv2, clone_repo, hsp, hnd, hexit,
      detect_framework, hrsp]

/-- C6 amended witness: a rev-parse exiting 128 on the cloned workspace
still ends in detected. -/
theorem C6_resolution_amended_witness :
    (detect_framework emptyWorkspace ⟨true, 128, ""⟩).1 =
      Except.ok (framework_label emptyWorkspace, none) ∧
    (process_agent_deployment "https://github.com/a/b" "main" "/tmp/agent_w"
        ⟨true, 1, 0, ""⟩ ⟨true, 128, ""⟩ emptyWorkspace (fun _ => true)).store =
      Status.detected :=
  ⟨C6_resolution_amended.1 emptyWorkspace ⟨true, 128, ""⟩ rfl (by decide),
   C6_resolution_amended.2 "https://github.com/a/b" "main" "/tmp/agent_w"
     ⟨true, 1, 0, ""⟩ ⟨true, 128, ""⟩ emptyWorkspace (fun _ => true)
     (by decide) rfl (by decide) rfl rfl (fun n => rfl)⟩

/-- C7: a clone process that runs within the bound but exits non-zero makes
clone_repo fail with the message carrying the diagnostic output, and a
clone exceeding the 600 second bound makes it fail with the timeout error;
in both cases the event trace is exactly create directory, spawn, remove
directory, so the temporary directory is removed before the error
surfaces and no directory is leaked on these failure paths. -/
theorem C7_clone_failure_cleanup (url branch d : String) (cp : GitProc) :
    (cp.spawnOk = true → cp.durationSecs ≤ clone_timeout_seconds →
      cp.exitCode ≠ 0 →
      clone_repo url branch d cp =
        (Except.error (RunErr.cloneFailed (cloneErrMsg cp.stderrTxt)),
         [Event.mkdirTemp d, Event.spawn (cloneCmd branch url d),
          Event.rmtreeDir d]))
    ∧ (cp.spawnOk = true → clone_timeout_seconds < cp.durationSecs →
      clone_repo url branch d cp =
        (Except.error RunErr.cloneTimeout,
         [Event.mkdirTemp d, Event.spawn (cloneCmd branch url d),
          Event.rmtreeDir d]))
    ∧ (cp.stderrTxt ≠ "" →
      cloneErrMsg cp.stderrTxt = "Failed to clone repository: " ++ cp.stderrTxt) := by
  refine ⟨?_, ?_, ?_⟩
  · intro h1 h2 h3
    have hnd : ¬(clone_timeout_seconds < cp.durationSecs) := not_lt.mpr h2
    simp [clone_repo, h1, hnd, h3]
  · intro h1 h2
    simp [clone_repo, h1, h2]
  · intro h
    simp [cloneErrMsg, h]

/-- C7 witness: a concrete failing clone and a concrete timed-out clone. -/
theorem C7_clone_failure_cleanup_witness :
    clone_repo "https://github.com/a/b" "main" "/tmp/agent_w"
        ⟨true, 10, 128, "fatal: not found"⟩ =
      (Except.error (RunErr.cloneFailed (cloneErrMsg "fatal: not found")),
       [Event.mkdirTemp "/tmp/agent_w",
        Event.spawn (cloneCmd "main" "https://github.com/a/b" "/tmp/agent_w"),
        Event.rmtreeDir "/tmp/agent_w"]) ∧
    clone_repo "https://github.com/a/b" "main" "/tmp/agent_w" ⟨true, 601, 0, ""⟩ =
      (Except.error RunErr.cloneTimeout,
       [Event.mkdirTemp "/tmp/agent_w",
        Event.spawn (cloneCmd "main" "https://github.com/a/b" "/tmp/agent_w"),
        Event.rmtreeDir "/tmp/agent_w"]) ∧
    cloneErrMsg "fatal: not found" = "Failed to clone repository: fatal: not found" :=
  ⟨(C7_clone_failure_cleanup "https://github.com/a/b" "main" "/tmp/agent_w"
      ⟨true, 10, 128, "fatal: not found"⟩).1 rfl (by decide) (by decide),
   (C7_clone_failure_cleanup "https://github.com/a/b" "main" "/tmp/agent_w"
      ⟨true, 601, 0, ""⟩).2.1 rfl (by decide),
   (C7_clone_failure_cleanup "https://github.com/a/b" "main" "/tmp/agent_w"
      ⟨true, 10, 128, "fatal: not found"⟩).2.2 (by decide)⟩

/-- C8: URL validation accepts exactly the non-empty strings containing one
of the three GitHub patterns, is deterministic, and a run with a rejected
URL performs no filesystem or process event at all: no process is spawned
and no directory is created. -/
theorem C8_validate_url_iff :
    (∀ s : String, validate_repo_url s = true ↔
      (s ≠ "" ∧ (strContains s "github.com/" = true ∨
        strContains s "https://github.com/" = true ∨
        strContains s "git@github.com:" = true)))
    ∧ (∀ s : String, validate_repo_url s = validate_repo_url s)
    ∧ (∀ (url branch d : String) (cp : GitProc) (rp : RevProc) (ws : Workspace)
        (pOk : Nat → Bool), validate_repo_url url = false →
        (process_agent_deployment url branch d cp rp ws pOk).events = []) := by
  refine ⟨?_, fun s => rfl, ?_⟩
  · intro s
    unfold validate_repo_url
    by_cases h : s = ""
    · subst h
      simp
    · simp [h]
  · intro url branch d cp rp ws pOk hv
    unfold process_agent_deployment
    rcases hp0 : pOk 0 <;> rcases hp1 : pOk 1 <;>
      simp [hp0, hp1, hv, failFinish]

/-- C8 witness: a rejected URL yields an empty event trace. -/
theorem C8_validate_url_iff_witness :
    validate_repo_url "not-a-valid-url" = false ∧
    (process_agent_deployment "not-a-valid-url" "main" "/tmp/agent_w"
        ⟨true, 1, 0, ""⟩ ⟨true, 0, ""⟩ emptyWorkspace (fun _ => true)).events = [] :=
  ⟨by decide,
   C8_validate_url_iff.2.2 "not-a-valid-url" "main" "/tmp/agent_w"
     ⟨true, 1, 0, ""⟩ ⟨true, 0, ""⟩ emptyWorkspace (fun _ => true) (by decide)⟩

theorem scanFilesL_spec (fs : List (String × List String)) :
    ∀ (sc : Nat) (fd : List String), sc < max_files →
    scanFilesL fs sc fd =
      (min max_files
         (sc + ((fs.filter (fun f => strEndsWith f.1 ".py")).map (fun f => f.2)).length),
       fd ++ ((((fs.filter (fun f => strEndsWith f.1 ".py")).map (fun f => f.2)).take
           (max_files - sc)).flatMap fileMatches),
       decide (max_files - sc ≤
         ((fs.filter (fun f => strEndsWith f.1 ".py")).map (fun f => f.2)).length)) := by
  induction fs with
  | nil =>
    intro sc fd h
    have hd0 : ¬(max_files - sc ≤ 0) := by omega
    simp [scanFilesL, hd0, Nat.min_eq_right (Nat.le_of_lt h)]
  | cons hd rest ih =>
    intro sc fd h
    obtain ⟨nm, lns⟩ := hd
    by_cases hpy : strEndsWith nm ".py"
    · by_cases hstop : max_files ≤ sc + 1
      · have h1 : max_files - sc = 1 := by omega
        have h2 : min max_files
            (sc + (1 + ((rest.filter (fun f => strEndsWith f.1 ".py")).map
              (fun f => f.2)).length)) = max_files := by omega
        have h3 : (max_files - sc ≤ 1 + ((rest.filter (fun f => strEndsWith f.1 ".py")).map
            (fun f => f.2)).length) := by omega
        simp [scanFilesL, hpy, hstop, List.filter_cons, h1, h3, h2]
        omega
      · have hlt : sc + 1 < max_files := by omega
        have h1 : max_files - sc = (max_files - (sc + 1)) + 1 := by omega
        rw [scanFilesL]
        simp only [hpy, if_true, reduceIte, hstop, if_false]
        rw [ih (sc + 1) (fd ++ fileMatches lns) hlt]
        simp [List.filter_cons, hpy, h1, List.take_succ_cons, List.flatMap_cons]
        omega
    · rw [scanFilesL]
      simp only [hpy, if_false, reduceIte]
      rw [ih sc fd h]
      simp [List.filter_cons, hpy]


theorem scanGo_spec (stack : List FsTree) (sc : Nat) (fd : List String) :
    sc < max_files →
    scanGo stack sc fd =
      (min max_files (sc + (pyFilesOf stack).length),
       fd ++ ((pyFilesOf stack).take (max_files - sc)).flatMap fileMatches,
       decide (max_files - sc ≤ (pyFilesOf stack).length)) := by
  induction stack, sc, fd using scanGo.induct with
  | case1 sc fd =>
    intro h
    have hd0 : ¬(max_files - sc ≤ 0) := by omega
    simp [scanGo, pyFilesOf, hd0, Nat.min_eq_right (Nat.le_of_lt h)]
  | case2 dn fs subs rest sc fd r hstop =>
    intro h
    have hr : r = scanFilesL fs sc fd := rfl
    clear_value r
    subst hr
    have hF := scanFilesL_spec fs sc fd h
    simp only [hF] at hstop
    have hle : max_files - sc ≤
        ((fs.filter (fun f => strEndsWith f.1 ".py")).map (fun f => f.2)).length :=
      of_decide_eq_true hstop
    rw [scanGo, pyFilesOf]
    simp only [hF, hstop, if_true, reduceIte]
    have htk : max_files - sc -
        ((fs.filter (fun f => strEndsWith f.1 ".py")).map (fun f => f.2)).length = 0 := by
      omega
    rw [List.take_append_eq_append_take, htk]
    simp only [List.take_zero, List.append_nil, Prod.mk.injEq, List.length_append]
    refine ⟨by omega, trivial, (decide_eq_true (by omega)).symm⟩
  | case3 dn fs subs rest sc fd r hns ih =>
    intro h
    have hr : r = scanFilesL fs sc fd := rfl
    clear_value r
    subst hr
    have hF := scanFilesL_spec fs sc fd h
    simp only [hF] at hns ih
    rw [decide_eq_true_eq] at hns
    have hgt := hns
    have hmin : min max_files
        (sc + ((fs.filter (fun f => strEndsWith f.1 ".py")).map (fun f => f.2)).length) =
        sc + ((fs.filter (fun f => strEndsWith f.1 ".py")).map (fun f => f.2)).length := by
      omega
    have htake : ((fs.filter (fun f => strEndsWith f.1 ".py")).map (fun f => f.2)).take
        (max_files - sc) =
        (fs.filter (fun f => strEndsWith f.1 ".py")).map (fun f => f.2) :=
      List.take_of_length_le (by omega)
    rw [hmin, htake] at ih
    have hrec := ih (by omega)
    rw [scanGo, pyFilesOf]
    simp only [hF, hmin, htake]
    have hcond : decide (max_files - sc ≤
        ((fs.filter (fun f => strEndsWith f.1 ".py")).map (fun f => f.2)).length) = false :=
      decide_eq_false hgt
    rw [hcond]
    simp only [Bool.false_eq_true, if_false, reduceIte]
    rw [hrec]
    rw [List.take_append_eq_append_take]
    have hsub : max_files - sc -
        ((fs.filter (fun f => strEndsWith f.1 ".py")).map (fun f => f.2)).length =
        max_files -
          (sc + ((fs.filter (fun f => strEndsWith f.1 ".py")).map (fun f => f.2)).length) := by
      omega
    rw [hsub]
    rw [List.flatMap_append, htake]
    simp only [Prod.mk.injEq, List.length_append, List.append_assoc]
    refine ⟨by omega, trivial, decide_eq_decide.mpr (by omega)⟩

/-- C9: the import scan equals its specification: it inspects exactly the
first 500 .py files of the depth-first walk outside the pruned directories,
matching the first 200 lines of each (the 200-line bound is part of
fileMatches on both sides), aggregates the matches, and returns the
highest-priority framework among them, or none. -/
theorem C9_import_scan_characterization (t : FsTree) :
    _detect_from_imports t = imports_spec t := by
  unfold _detect_from_imports imports_spec
  rw [scanGo_spec [t] 0 [] (by norm_num [max_files])]
  simp
